import Mathlib

/-!
# Verification of `notebooks/helper_funcs.py`

A shallow embedding of the two functions of `helper_funcs.py` that the
specification covers: the custom ASCII report reader `read_file_custom`
and the colormap shifter `shifted_color_map` (its pure numeric core; the
matplotlib colormap object it finally wraps is an external collaborator).

Python strings are modelled as Lean `String`s; the Python string methods
used by the source (`in`, `split(sep)`, `split()`, `strip()`) are given
executable models over `List Char` below.  Python floats are modelled
exactly by rationals (`ℚ`) together with the special values NaN and ±Inf
(`PyFloat`); the decimal literals occurring in reports are represented
exactly, and IEEE rounding is outside the scope of the claims.  Python
exceptions (`NameError`, `IndexError`, `ValueError` from `float`,
`ZeroDivisionError`) are modelled by `Except PyErr`.
-/

namespace HelperFuncs

/-- Python exceptions that the embedded code can raise. -/
inductive PyErr
  | nameError (n : String)
  | indexError
  | valueError (tok : String)
  | zeroDivisionError
deriving DecidableEq, Repr

instance {ε α : Type} [DecidableEq ε] [DecidableEq α] : DecidableEq (Except ε α) := fun
  | .error a, .error b =>
    match decEq a b with
    | isTrue h => isTrue (h ▸ rfl)
    | isFalse h => isFalse fun hh => h (by cases hh; rfl)
  | .error _, .ok _ => isFalse Except.noConfusion
  | .ok _, .error _ => isFalse Except.noConfusion
  | .ok a, .ok b =>
    match decEq a b with
    | isTrue h => isTrue (h ▸ rfl)
    | isFalse h => isFalse fun hh => h (by cases hh; rfl)

/-- Does `pat` occur as a contiguous substring of `s`?  Model of Python
`pat in s` (for the non-empty markers used in the source). -/
def containsSubAux (pat : List Char) : List Char → Bool
  | [] => pat.isEmpty
  | c :: rest => pat.isPrefixOf (c :: rest) || containsSubAux pat rest

/-- Python `pat in s` on strings. -/
def strContains (s pat : String) : Bool :=
  containsSubAux pat.toList s.toList

/-- Fuel-driven worker for `pySplitOn`: splits at each leftmost
non-overlapping occurrence of `sep` (assumed non-empty).  The fuel is
always at least `s.length + 1`, so the base case is never hit on the
arguments we use. -/
def pySplitOnAux (sep : List Char) : Nat → List Char → List Char → List (List Char)
  | 0, s, acc => [acc.reverse ++ s]
  | Nat.succ fuel, s, acc =>
    if !sep.isEmpty && sep.isPrefixOf s then
      acc.reverse :: pySplitOnAux sep fuel (s.drop sep.length) []
    else
      match s with
      | [] => [acc.reverse]
      | c :: rest => pySplitOnAux sep fuel rest (c :: acc)

/-- Python `s.split(sep)` for a non-empty separator `sep`. -/
def pySplitOn (s sep : String) : List String :=
  (pySplitOnAux sep.toList (s.toList.length + 1) s.toList []).map List.asString

/-- Worker for `pySplitWs`. -/
def pySplitWsAux : List Char → List Char → List (List Char)
  | [], acc => if acc.isEmpty then [] else [acc.reverse]
  | c :: rest, acc =>
    if c.isWhitespace then
      if acc.isEmpty then pySplitWsAux rest []
      else acc.reverse :: pySplitWsAux rest []
    else pySplitWsAux rest (c :: acc)

/-- Python `s.split()` (no argument): split on runs of whitespace,
dropping empty fields. -/
def pySplitWs (s : String) : List String :=
  (pySplitWsAux s.toList []).map List.asString

/-- Python `s.strip()`. -/
def pyStrip (s : String) : String :=
  ((s.toList.dropWhile Char.isWhitespace).reverse.dropWhile Char.isWhitespace).reverse.asString

/-- A Python float value as produced by `float(str)` on report tokens:
an exact rational for finite decimal literals, or one of the special
values NaN / ±Infinity. -/
inductive PyFloat
  | num (q : ℚ)
  | nan
  | inf (neg : Bool)
deriving DecidableEq, Repr

/-- Python `v == n` for a float `v` and an integer literal `n`
(NaN and infinities compare unequal to every integer). -/
def pyFloatEqInt : PyFloat → Int → Bool
  | .num q, n => decide (q.num = n) && decide (q.den = 1)
  | .nan, _ => false
  | .inf _, _ => false

/-- The value of a digit string (most significant first). -/
def digitsToNat (ds : List Char) : Nat :=
  ds.foldl (fun n c => 10 * n + (c.toNat - 48)) 0

/-- Exponent-part digits of a float literal: non-empty, all digits. -/
def expDigits (ds : List Char) : Option Nat :=
  if !ds.isEmpty && ds.all Char.isDigit then some (digitsToNat ds) else none

/-- Parse the optional exponent suffix (`e`/`E`, optional sign, digits);
returns the decimal exponent, `0` when absent, `none` on garbage. -/
def parseExp : List Char → Option Int
  | [] => some 0
  | c :: rest =>
    if c = 'e' ∨ c = 'E' then
      match rest with
      | '+' :: ds => (expDigits ds).map Int.ofNat
      | '-' :: ds => (expDigits ds).map (fun k => -(k : Int))
      | ds => (expDigits ds).map Int.ofNat
    else none

/-- The exact rational value `m * 10 ^ k` of a decimal mantissa and
exponent.  Built with `mkRat` and integer arithmetic only, so that it
evaluates inside the kernel. -/
def decValue (m : Int) (k : Int) : ℚ :=
  if 0 ≤ k then mkRat (m * (10 : Int) ^ k.toNat) 1 else mkRat m ((10 : Nat) ^ (-k).toNat)

/-- Parse an unsigned decimal float body: `digits [. digits]` or
`. digits`, optionally followed by an exponent; the sign is applied to
the mantissa.  Must consume the whole input. -/
def parseUnsigned (neg : Bool) (cs : List Char) : Option ℚ :=
  let intPart := cs.takeWhile Char.isDigit
  let rest1 := cs.dropWhile Char.isDigit
  let signed : Nat → Int := fun n => if neg then -(n : Int) else (n : Int)
  match rest1 with
  | '.' :: rest2 =>
    let fracPart := rest2.takeWhile Char.isDigit
    let rest3 := rest2.dropWhile Char.isDigit
    if intPart.isEmpty && fracPart.isEmpty then none
    else
      (parseExp rest3).map
        (fun k =>
          decValue (signed (digitsToNat intPart * 10 ^ fracPart.length + digitsToNat fracPart))
            (k - fracPart.length))
  | _ =>
    if intPart.isEmpty then none
    else (parseExp rest1).map (fun k => decValue (signed (digitsToNat intPart)) k)

/-- The case-insensitive special spellings `nan` / `inf` / `infinity`
accepted by Python `float`. -/
def parseSpecial (cs : List Char) (neg : Bool) : Option PyFloat :=
  let low := cs.map Char.toLower
  if low = "nan".toList then some .nan
  else if low = "inf".toList ∨ low = "infinity".toList then some (.inf neg)
  else none

/-- Model of Python `float(s)`: strip surrounding whitespace, optional
sign, then a decimal literal or a special spelling; `none` models the
`ValueError` raised on anything else. -/
def parsePyFloat (s : String) : Option PyFloat :=
  let cs := (pyStrip s).toList
  let signBody : Bool × List Char :=
    match cs with
    | '+' :: rest => (false, rest)
    | '-' :: rest => (true, rest)
    | rest => (false, rest)
  match parseSpecial signBody.2 signBody.1 with
  | some v => some v
  | none => (parseUnsigned signBody.1 signBody.2).map .num

/-! ## The report reader `read_file_custom` -/

/-- One row appended to `data` by `read_file_custom`: in the source it is
the Python list `[test_case, years, _var, var_info, flag, v1, v2, v3, v4]`.
The four numeric entries are kept as a list so that their count is a
property of the data, not of the type. -/
structure Record where
  run : String
  years : String
  var : String
  desc : String
  flag : Bool
  vals : List PyFloat
deriving DecidableEq, Repr

/-- The local variables of `read_file_custom`'s loop.  `years` and
`header` start out as unbound Python locals (they are only assigned in
the `TEST CASE:` branch), modelled by `Option`: reading them while still
`none` raises a `NameError`. -/
structure PState where
  test_case : String
  control_case : String
  years : Option String
  header : Option (List String)
  in_data : Bool
  data : List Record
deriving DecidableEq, Repr

/-- The state at the top of `read_file_custom`'s loop. -/
def initState : PState :=
  { test_case := "", control_case := "", years := none, header := none,
    in_data := false, data := [] }

/-- The hard-coded list `problem_vars` of the source. -/
def problem_vars : List String :=
  ["FSNTOAC_CERES-EBAF", "FSNTOA_CERES-EBAF"]

/-- The column names assigned to `header` in the `TEST CASE:` branch. -/
def headerCols : List String :=
  ["Run", "Years", "Variable", "Description", "Flag", "Model", "Obs", "Bias", "RMSE"]

/-- Decomposition of a candidate data row into the variable name and the
token list: the `problem_vars` loop followed by `spl = spl[1].split()`
or `spl = line.split(); _var = spl.pop(0)`.  The last matching problem
variable wins (the Python loop overwrites `spl`/`_var` on each match);
`spl.pop(0)` on a token-free line raises an `IndexError`. -/
def splitDataLine (line : String) : Except PyErr (String × List String) :=
  match (problem_vars.filter (fun v => strContains line v)).getLast? with
  | some var =>
    match (pySplitOn line var).get? 1 with
    | none => .error .indexError
    | some after => .ok (var, pySplitWs after)
  | none =>
    match pySplitWs line with
    | [] => .error .indexError
    | v :: rest => .ok (v, rest)

/-- The `try`/`except` block computing `var_info` and `flag`: a present,
non-empty description gives `(description, true)`; a missing key or an
empty value is caught by the bare `except` and gives `("", false)`. -/
def lookupDesc (var_info_dict : List (String × String)) (v : String) : String × Bool :=
  match var_info_dict.lookup v with
  | some info => if info = "" then ("", false) else (info, true)
  | none => ("", false)

/-- The `for item in spl` loop: `float(item)` (a `ValueError` aborts the
call), then the sentinel test `if val == -999: val = np.nan`. -/
def convertVals : List String → Except PyErr (List PyFloat)
  | [] => .ok []
  | t :: ts =>
    match parsePyFloat t with
    | none => .error (.valueError t)
    | some v =>
      (convertVals ts).map
        (fun vs => (if pyFloatEqInt v (-999) then PyFloat.nan else v) :: vs)

/-- The body of the `for item in spl` loop for a single token whose
conversion succeeds: the parsed value, except that a parsed value equal
to the integer `-999` becomes NaN. -/
def convToken (t : String) : PyFloat :=
  match parsePyFloat t with
  | some v => if pyFloatEqInt v (-999) then PyFloat.nan else v
  | none => PyFloat.nan

/-- One iteration of the `for line in lines` loop of `read_file_custom`.
The branches appear in the order of the source's `if`/`elif` chain; the
initial `line.strip()` of the source discards its result and is a no-op. -/
def processLine (var_info_dict : List (String × String)) (st : PState) (line : String) :
    Except PyErr PState :=
  if strContains line "TEST CASE:" then
    match (pySplitOn line "TEST CASE:").get? 1 with
    | none => .error .indexError
    | some s1 =>
      match (pySplitOn (pyStrip s1) "(yrs ").get? 1 with
      | none => .error .indexError
      | some afterYrs =>
        .ok { st with
          test_case := (pySplitOn (pyStrip s1) "(yrs ").headD ""
          years := some ((pySplitOn afterYrs ")").headD "")
          header := some headerCols }
  else if strContains line "CONTROL CASE:" then
    match (pySplitOn line "CONTROL CASE:").get? 1 with
    | none => .error .indexError
    | some s1 => .ok { st with control_case := pyStrip s1 }
  else if strContains line "Variable" then
    .ok { st with in_data := true }
  else if st.in_data then
    match splitDataLine line with
    | .error e => .error e
    | .ok vspl =>
      if vspl.2.length = 4 then
        match st.years with
        | none => .error (.nameError "years")
        | some yrs =>
          match convertVals vspl.2 with
          | .error e => .error e
          | .ok vals =>
            .ok { st with
              data := st.data ++ [⟨st.test_case, yrs, vspl.1,
                (lookupDesc var_info_dict vspl.1).1, (lookupDesc var_info_dict vspl.1).2, vals⟩] }
      else .ok st
  else .ok st

/-- The whole `for line in lines` loop. -/
def processLines (var_info_dict : List (String × String)) :
    PState → List String → Except PyErr PState
  | st, [] => .ok st
  | st, l :: ls =>
    match processLine var_info_dict st l with
    | .error e => .error e
    | .ok st2 => processLines var_info_dict st2 ls

/-- Model of `read_file_custom`.  The file contents are the already-split
`lines`; `var_info_dict` is the optional description map (its Python
default `None` and the falsy-replacement `if not var_info_dict` both
amount to the empty association list).  The final
`DataFrame(data, columns=header)` reads `header`, which raises a
`NameError` when no `TEST CASE:` line was ever seen; the returned table
is modelled by its column list and its ordered record list (the
`set_index` call only rearranges the same columns). -/
def read_file_custom (lines : List String)
    (var_info_dict : List (String × String) := []) :
    Except PyErr (List String × List Record) :=
  match processLines var_info_dict initState lines with
  | .error e => .error e
  | .ok st =>
    match st.header with
    | none => .error (.nameError "header")
    | some h => .ok (h, st.data)

/-! ## The colormap shifter `shifted_color_map` -/

/-- Python `a / b` on exact values: raises `ZeroDivisionError` when the
divisor is zero. -/
def pyDiv (a b : ℚ) : Except PyErr ℚ :=
  if b = 0 then .error .zeroDivisionError else .ok (a / b)

/-- `numpy.linspace a b n` (`endpoint` selects whether `b` is included),
with exact rational sample positions. -/
def linspace (a b : ℚ) (n : Nat) (endpoint : Bool) : List ℚ :=
  if n = 0 then []
  else if n = 1 then [a]
  else
    let d := (b - a) / (if endpoint then ((n : ℚ) - 1) else (n : ℚ))
    (List.range n).map (fun i => a + d * i)

/-- The numeric core of `shifted_color_map`: the midpoint
`1 - abs(vmax)/(abs(vmax) + abs(vmin))` (whose division raises
`ZeroDivisionError` when `vmin == vmax == 0`) and the `shift_index`
schedule `hstack([linspace(0, midpoint, 128, endpoint=False),
linspace(midpoint, 1.0, 129, endpoint=True)])`.  The wrapping of the
resampled colors into a `LinearSegmentedColormap` belongs to matplotlib
and is outside the model. -/
def shifted_color_map (vmin vmax : ℚ) : Except PyErr (ℚ × List ℚ) :=
  match pyDiv |vmax| (|vmax| + |vmin|) with
  | .error e => .error e
  | .ok frac =>
    let midpoint := 1 - frac
    .ok (midpoint, linspace 0 midpoint 128 false ++ linspace midpoint 1 129 true)

/-- The per-record shape that `read_file_custom` guarantees: exactly four
numeric values, and the description/flag pair determined by looking the
variable up in the supplied map, treating an empty value as absent. -/
def goodRec (d : List (String × String)) (r : Record) : Prop :=
  r.vals.length = 4 ∧
    (r.flag = true ↔ ∃ v, List.lookup r.var d = some v ∧ v ≠ "") ∧
    (r.flag = true → List.lookup r.var d = some r.desc) ∧
    (r.flag = false → r.desc = "")

/-! ## General lemmas about the loop -/

/-- Successful token conversion keeps the token count. -/
theorem convertVals_length (ts : List String) (vs : List PyFloat)
    (h : convertVals ts = .ok vs) : vs.length = ts.length := by
  induction ts generalizing vs with
  | nil => cases h; rfl
  | cons t ts ih =>
    unfold convertVals at h
    cases hp : parsePyFloat t with
    | none => rw [hp] at h; cases h
    | some v =>
      rw [hp] at h
      cases hc : convertVals ts with
      | error e => rw [hc] at h; cases h
      | ok vs' =>
        rw [hc] at h
        cases h
        simp [ih vs' hc]

/-- When every token parses, the conversion loop succeeds and yields the
per-token conversion `convToken`. -/
theorem convertVals_ok_map (ts : List String)
    (h : ∀ t ∈ ts, (parsePyFloat t).isSome) :
    convertVals ts = .ok (ts.map convToken) := by
  induction ts with
  | nil => rfl
  | cons t ts ih =>
    have ht : (parsePyFloat t).isSome := h t (List.mem_cons_self t ts)
    cases hp : parsePyFloat t with
    | none => rw [hp] at ht; cases ht
    | some v =>
      have hrest := ih (fun s hs => h s (List.mem_cons_of_mem t hs))
      unfold convertVals
      rw [hp, hrest]
      simp [convToken, hp, Except.map]

/-- The conversion loop fails with a `ValueError` on the first token
that does not parse as a float. -/
theorem convertVals_find_bad (ts : List String) (t : String)
    (h : ts.find? (fun s => (parsePyFloat s).isNone) = some t) :
    convertVals ts = .error (.valueError t) := by
  induction ts with
  | nil => cases h
  | cons t0 ts ih =>
    rw [List.find?_cons] at h
    cases hp : parsePyFloat t0 with
    | none =>
      rw [hp] at h
      simp at h
      cases h
      unfold convertVals
      rw [hp]
    | some v =>
      rw [hp] at h
      simp at h
      unfold convertVals
      rw [hp, ih h]
      rfl

/-- The loop over an appended line list runs the two parts in sequence,
stopping at the first error. -/
theorem processLines_append (d : List (String × String)) (pre post : List String)
    (st : PState) :
    processLines d st (pre ++ post) =
      match processLines d st pre with
      | .ok st' => processLines d st' post
      | .error e => .error e := by
  induction pre generalizing st with
  | nil => rfl
  | cons l ls ih =>
    simp only [List.cons_append, processLines]
    cases processLine d st l with
    | error e => rfl
    | ok st2 => exact ih st2

/-- A line without the `TEST CASE:` marker never assigns `header`. -/
theorem processLine_header (d : List (String × String)) (st : PState) (line : String)
    (st' : PState) (h1 : strContains line "TEST CASE:" = false)
    (h : processLine d st line = .ok st') : st'.header = st.header := by
  unfold processLine at h
  rw [h1] at h
  simp only [Bool.false_eq_true, if_false] at h
  split at h
  · split at h
    · cases h
    · cases h; rfl
  · split at h
    · cases h; rfl
    · split at h
      · split at h
        · cases h
        · split at h
          · split at h
            · cases h
            · split at h
              · cases h
              · cases h; rfl
          · cases h; rfl
      · cases h; rfl

/-- Any successful loop iteration either leaves `data` unchanged or
appends exactly the one record built in the 4-token branch. -/
theorem processLine_new_records (d : List (String × String)) (st : PState) (line : String)
    (st' : PState) (h : processLine d st line = .ok st') :
    st'.data = st.data ∨
      ∃ y vspl vals, splitDataLine line = Except.ok vspl ∧ vspl.2.length = 4 ∧
        st.years = some y ∧ convertVals vspl.2 = Except.ok vals ∧
        st'.data = st.data ++
          [⟨st.test_case, y, vspl.1, (lookupDesc d vspl.1).1, (lookupDesc d vspl.1).2, vals⟩] := by
  unfold processLine at h
  split at h
  · split at h
    · cases h
    · split at h
      · cases h
      · cases h; left; rfl
  · split at h
    · split at h
      · cases h
      · cases h; left; rfl
    · split at h
      · cases h; left; rfl
      · split at h
        · split at h
          · cases h
          · split at h
            · split at h
              · cases h
              · split at h
                · cases h
                · cases h
                  exact Or.inr ⟨_, _, _, by assumption, by assumption, by assumption,
                    by assumption, rfl⟩
            · cases h; left; rfl
        · cases h; left; rfl

/-- The record built in the 4-token branch satisfies `goodRec`. -/
theorem lookupDesc_good (d : List (String × String)) (v tc y : String)
    (vals : List PyFloat) (hlen : vals.length = 4) :
    goodRec d ⟨tc, y, v, (lookupDesc d v).1, (lookupDesc d v).2, vals⟩ := by
  unfold goodRec lookupDesc
  cases hl : List.lookup v d with
  | none => simp [hlen]
  | some info =>
    by_cases hi : info = ""
    · subst hi; simp [hlen]
    · simp [hi, hlen]

/-- Every record accumulated by the loop satisfies `goodRec`, provided
the starting records do. -/
theorem processLines_good (d : List (String × String)) (lines : List String)
    (st st' : PState) (h : processLines d st lines = .ok st')
    (hst : ∀ r ∈ st.data, goodRec d r) : ∀ r ∈ st'.data, goodRec d r := by
  induction lines generalizing st with
  | nil => cases h; exact hst
  | cons l ls ih =>
    unfold processLines at h
    cases hp : processLine d st l with
    | error e => rw [hp] at h; cases h
    | ok st2 =>
      rw [hp] at h
      refine ih st2 h ?_
      rcases processLine_new_records d st l st2 hp with hsame |
        ⟨y, vspl, vals, _, hlen, _, hconv, hdata⟩
      · rw [hsame]; exact hst
      · rw [hdata]
        intro r hr
        rcases List.mem_append.mp hr with hin | hin
        · exact hst r hin
        · rcases List.mem_singleton.mp hin with rfl
          have hl4 : vals.length = 4 := by
            rw [convertVals_length vspl.2 vals hconv]; exact hlen
          exact lookupDesc_good d vspl.1 st.test_case y vals hl4

/-- The loop never assigns `header` when no line carries the
`TEST CASE:` marker. -/
theorem processLines_header_none (d : List (String × String)) (lines : List String)
    (st st' : PState) (hh : st.header = none)
    (hmark : ∀ l ∈ lines, strContains l "TEST CASE:" = false)
    (h : processLines d st lines = .ok st') : st'.header = none := by
  induction lines generalizing st with
  | nil => cases h; exact hh
  | cons l ls ih =>
    unfold processLines at h
    cases hp : processLine d st l with
    | error e => rw [hp] at h; cases h
    | ok st2 =>
      rw [hp] at h
      have h2 : st2.header = none := by
        rw [processLine_header d st l st2 (hmark l (List.mem_cons_self l ls)) hp]
        exact hh
      exact ih st2 h2 (fun x hx => hmark x (List.mem_cons_of_mem l hx)) h

/-! ## The claims -/

/-- C1 (counterexample).  On the four-line input of the claim the parser
emits one record, but its `run` field is `"run1 "` with a trailing
space, not the trimmed `"run1"` the claim requires: the source strips
the remainder of the `TEST CASE:` split before splitting on `"(yrs "`,
so the blank between the run name and `"(yrs"` survives. -/
theorem C1_counterexample :
    read_file_custom ["TEST CASE: run1 (yrs 1980-2000)", "CONTROL CASE: ctrl1",
        "Variable     Model  Obs  Bias  RMSE", "TEMP 1.0 2.0 3.0 4.0"] [] =
      .ok (headerCols, [⟨"run1 ", "1980-2000", "TEMP", "", false,
        [.num 1, .num 2, .num 3, .num 4]⟩]) ∧
    ("run1 " : String) ≠ "run1" :=
  ⟨by decide, by decide⟩

/-- C1 (amended).  For the four-line input
`"TEST CASE: run1 (yrs 1980-2000)"`, `"CONTROL CASE: ctrl1"`, a header
line containing `"Variable"`, and `"TEMP 1.0 2.0 3.0 4.0"`, the parser
emits exactly one record with `run = "run1 "` (the run name keeps the
single space that separated it from `"(yrs "`), `years = "1980-2000"`,
`variable = "TEMP"` and values `1.0, 2.0, 3.0, 4.0`. -/
theorem C1_run_keeps_trailing_space :
    read_file_custom ["TEST CASE: run1 (yrs 1980-2000)", "CONTROL CASE: ctrl1",
        "Variable     Model  Obs  Bias  RMSE", "TEMP 1.0 2.0 3.0 4.0"] [] =
      .ok (headerCols, [⟨"run1 ", "1980-2000", "TEMP", "", false,
        [.num 1, .num 2, .num 3, .num 4]⟩]) := by
  decide

/-- C2 (counterexample).  The claim says a `TEST CASE:` line resets the
in-data-section state, so lines between such a header and the next
`"Variable"` line are never data rows.  In this input the row
`"X 1 2 3 4"` sits between the second `TEST CASE:` header and
end-of-input with no further `"Variable"` line, yet a record is emitted
for it: the source never resets `in_data`. -/
theorem C2_counterexample :
    read_file_custom ["TEST CASE: r1 (yrs 1-2)", "Variable", "TEST CASE: r2 (yrs 3-4)",
        "X 1 2 3 4"] [] =
      .ok (headerCols, [⟨"r2 ", "3-4", "X", "", false,
        [.num 1, .num 2, .num 3, .num 4]⟩]) := by
  decide

/-- C2 (amended).  Processing a line that contains `"TEST CASE:"` leaves
the in-data-section state exactly as it was (it is never set to false);
consequently, once a `"Variable"` line has been seen, later lines remain
candidate data rows even between a new `TEST CASE:` header and the next
`"Variable"` line. -/
theorem C2_test_case_line_preserves_in_data (d : List (String × String)) (st : PState)
    (line : String) (st' : PState)
    (h1 : strContains line "TEST CASE:" = true)
    (h : processLine d st line = .ok st') : st'.in_data = st.in_data := by
  unfold processLine at h
  rw [h1, if_pos rfl] at h
  split at h
  · cases h
  · split at h
    · cases h
    · cases h; rfl

/-- C2 (witness): the amended theorem applied to a `TEST CASE:` line in
a state whose in-data flag is already set. -/
theorem C2_witness :
    (⟨"r ", "", some "1-2", some headerCols, true, []⟩ : PState).in_data =
      (⟨"", "", none, none, true, []⟩ : PState).in_data :=
  C2_test_case_line_preserves_in_data [] ⟨"", "", none, none, true, []⟩
    "TEST CASE: r (yrs 1-2)" ⟨"r ", "", some "1-2", some headerCols, true, []⟩
    (by decide) (by decide)

/-- C3 (counterexample).  A candidate data row reached before any
`TEST CASE:` line does not produce a record with empty run and years:
the call fails, because the local `years` is read before it was ever
assigned. -/
theorem C3_counterexample :
    read_file_custom ["Variable", "TEMP 1.0 2.0 3.0 4.0"] [] =
      .error (.nameError "years") := by
  decide

/-- C3 (amended).  Whenever a candidate data row that decomposes into a
variable name and exactly 4 tokens is reached while `years` is still
unbound (no `TEST CASE:` line was seen), the whole call fails with a
`NameError` on `years`; no record is emitted at all. -/
theorem C3_unbound_years_fails (d : List (String × String)) (pre post : List String)
    (st : PState) (line : String) (vspl : String × List String)
    (hpre : processLines d initState pre = .ok st)
    (h1 : strContains line "TEST CASE:" = false)
    (h2 : strContains line "CONTROL CASE:" = false)
    (h3 : strContains line "Variable" = false)
    (h4 : st.in_data = true)
    (hy : st.years = none)
    (hs : splitDataLine line = .ok vspl)
    (hlen : vspl.2.length = 4) :
    read_file_custom (pre ++ line :: post) d = .error (.nameError "years") := by
  have hline : processLine d st line = .error (.nameError "years") := by
    simp [processLine, h1, h2, h3, h4, hs, hlen, hy]
  unfold read_file_custom
  rw [processLines_append, hpre]
  unfold processLines
  rw [hline]

/-- C3 (witness): the amended theorem at the two-line input whose second
line is a 4-token data row. -/
theorem C3_witness :
    read_file_custom ["Variable", "TEMP 1 2 3 4"] [] = .error (.nameError "years") :=
  C3_unbound_years_fails [] ["Variable"] [] ⟨"", "", none, none, true, []⟩
    "TEMP 1 2 3 4" ("TEMP", ["1", "2", "3", "4"]) (by decide) (by decide) (by decide)
    (by decide) (by decide) (by decide) (by decide) (by decide)

/-- C4.  A candidate data row with exactly 4 tokens after the variable
name, one of which does not parse as a float, makes the whole call fail
with the `ValueError` of the first bad token: the error propagates to
the caller, no record for the row (or any later row) appears in any
output, and the row is not individually skipped. -/
theorem C4_bad_token_aborts_call (d : List (String × String)) (pre post : List String)
    (st : PState) (line : String) (vspl : String × List String) (y t : String)
    (hpre : processLines d initState pre = .ok st)
    (h1 : strContains line "TEST CASE:" = false)
    (h2 : strContains line "CONTROL CASE:" = false)
    (h3 : strContains line "Variable" = false)
    (h4 : st.in_data = true)
    (hy : st.years = some y)
    (hs : splitDataLine line = .ok vspl)
    (hlen : vspl.2.length = 4)
    (ht : vspl.2.find? (fun s => (parsePyFloat s).isNone) = some t) :
    read_file_custom (pre ++ line :: post) d = .error (.valueError t) := by
  have hconv := convertVals_find_bad vspl.2 t ht
  have hline : processLine d st line = .error (.valueError t) := by
    simp [processLine, h1, h2, h3, h4, hs, hlen, hy, hconv]
  unfold read_file_custom
  rw [processLines_append, hpre]
  unfold processLines
  rw [hline]

/-- C4 (witness): a data section whose row `"TEMP 1.0 x 3.0 4.0"` has
the non-numeric token `"x"`. -/
theorem C4_witness :
    read_file_custom ["TEST CASE: r1 (yrs 1-2)", "Variable", "TEMP 1.0 x 3.0 4.0"] [] =
      .error (.valueError "x") :=
  C4_bad_token_aborts_call [] ["TEST CASE: r1 (yrs 1-2)", "Variable"] []
    ⟨"r1 ", "", some "1-2", some headerCols, true, []⟩ "TEMP 1.0 x 3.0 4.0"
    ("TEMP", ["1.0", "x", "3.0", "4.0"]) "1-2" "x" (by decide) (by decide) (by decide)
    (by decide) (by decide) (by decide) (by decide) (by decide) (by decide)

/-- C5 (counterexample).  The claim maps a token to NaN exactly when the
literal token is the string `"-999"`; but for the differently spelled
token `"-999.0"` the code still produces NaN (the sentinel test compares
the parsed value, not the source spelling), instead of the parsed float
`-999` the claim requires. -/
theorem C5_counterexample :
    (read_file_custom ["TEST CASE: r1 (yrs 1-2)", "Variable", "TEMP 1.0 2.0 3.0 -999.0"] [] =
      .ok (headerCols, [⟨"r1 ", "1-2", "TEMP", "", false,
        [.num 1, .num 2, .num 3, .nan]⟩]) ∧
    ("-999.0" : String) ≠ "-999") ∧ PyFloat.nan ≠ .num (mkRat (-999) 1) :=
  ⟨⟨by decide, by decide⟩, by decide⟩

/-- C5 (amended).  For a valid data row (4 tokens, all parseable), the
emitted record's four values are the per-token conversions `convToken`:
the parsed float, except exactly when the parsed value equals `-999`
(whatever its spelling: `-999`, `-999.0`, `-9.99e2`, …), which becomes
NaN. -/
theorem C5_values_conv_by_value (d : List (String × String)) (st : PState) (line : String)
    (vspl : String × List String) (y : String)
    (h1 : strContains line "TEST CASE:" = false)
    (h2 : strContains line "CONTROL CASE:" = false)
    (h3 : strContains line "Variable" = false)
    (h4 : st.in_data = true)
    (hy : st.years = some y)
    (hs : splitDataLine line = .ok vspl)
    (hlen : vspl.2.length = 4)
    (hall : ∀ t ∈ vspl.2, (parsePyFloat t).isSome) :
    processLine d st line = .ok { st with data := st.data ++
      [⟨st.test_case, y, vspl.1, (lookupDesc d vspl.1).1, (lookupDesc d vspl.1).2,
        vspl.2.map convToken⟩] } := by
  have hconv := convertVals_ok_map vspl.2 hall
  simp [processLine, h1, h2, h3, h4, hs, hlen, hy, hconv]

/-- C5 (witness): the amended theorem on the row
`"TEMP 1.0 2.0 3.0 -999"`. -/
theorem C5_witness :
    processLine [] ⟨"r1 ", "", some "1-2", some headerCols, true, []⟩
        "TEMP 1.0 2.0 3.0 -999" =
      .ok ⟨"r1 ", "", some "1-2", some headerCols, true,
        [⟨"r1 ", "1-2", "TEMP", "", false,
          ["1.0", "2.0", "3.0", "-999"].map convToken⟩]⟩ :=
  C5_values_conv_by_value [] ⟨"r1 ", "", some "1-2", some headerCols, true, []⟩
    "TEMP 1.0 2.0 3.0 -999" ("TEMP", ["1.0", "2.0", "3.0", "-999"]) "1-2"
    (by decide) (by decide) (by decide) (by decide) (by decide) (by decide) (by decide)
    (by decide)

/-- C6.  A data line containing the problem variable name
`"FSNTOAC_CERES-EBAF"` is split on that exact substring: inside a data
section, `"FSNTOAC_CERES-EBAF 1.1 2.2 3.3 -999"` yields one record with
`variable = "FSNTOAC_CERES-EBAF"`, `model = 1.1`, `obs = 2.2`,
`bias = 3.3` and `rmse` = NaN. -/
theorem C6_problem_var_line :
    read_file_custom ["TEST CASE: run1 (yrs 1980-2000)", "CONTROL CASE: ctrl1",
        "Variable     Model  Obs  Bias  RMSE", "FSNTOAC_CERES-EBAF 1.1 2.2 3.3 -999"] [] =
      .ok (headerCols, [⟨"run1 ", "1980-2000", "FSNTOAC_CERES-EBAF", "", false,
        [.num (mkRat 11 10), .num (mkRat 11 5), .num (mkRat 33 10), .nan]⟩]) := by
  decide

/-- C7 (counterexample).  The claim drops every wrong-token-count
candidate row silently; but a candidate row with no tokens at all (an
empty line inside the data section) aborts the call with an
`IndexError` from `spl.pop(0)` on an empty list, so the universal
"no error is raised" fails. -/
theorem C7_counterexample :
    read_file_custom ["TEST CASE: r1 (yrs 1-2)", "Variable", ""] [] =
      .error .indexError := by
  decide

/-- C7 (amended).  A candidate data row that decomposes (it has a
leading variable-name token, or contains a problem variable name) and
whose remaining token sequence does not have exactly 4 elements is
dropped silently — the state is returned unchanged, with no record and
no error — and every record of a successful call carries exactly 4
numeric values.  (A candidate row with no tokens at all instead raises
an `IndexError`, per the counterexample.) -/
theorem C7_short_rows_dropped (d : List (String × String)) (st : PState) (line : String)
    (vspl : String × List String)
    (h1 : strContains line "TEST CASE:" = false)
    (h2 : strContains line "CONTROL CASE:" = false)
    (h3 : strContains line "Variable" = false)
    (h4 : st.in_data = true)
    (hs : splitDataLine line = .ok vspl)
    (hlen : vspl.2.length ≠ 4) :
    processLine d st line = .ok st ∧
      (∀ (lines : List String) (dd : List (String × String)) (out : List String × List Record),
        read_file_custom lines dd = .ok out → ∀ r ∈ out.2, r.vals.length = 4) := by
  constructor
  · simp [processLine, h1, h2, h3, h4, hs, hlen]
  · intro lines dd out h r hr
    unfold read_file_custom at h
    cases hp : processLines dd initState lines with
    | error e => rw [hp] at h; cases h
    | ok st1 =>
      rw [hp] at h
      dsimp only at h
      cases hh : st1.header with
      | none => rw [hh] at h; cases h
      | some hd =>
        rw [hh] at h
        dsimp only at h
        cases h
        exact (processLines_good dd lines initState st1 hp (by intro r hr; cases hr) r hr).1

/-- C7 (witness): the amended theorem on the 3-token row
`"TEMP 1.0 2.0 3.0"`, whose emitted-record part is instantiated at a
successful one-record parse. -/
theorem C7_witness :
    (processLine [] ⟨"r1 ", "", some "1-2", some headerCols, true, []⟩ "TEMP 1.0 2.0 3.0" =
      .ok ⟨"r1 ", "", some "1-2", some headerCols, true, []⟩) ∧
    (⟨"r1 ", "1-2", "TEMP", "", false,
      [PyFloat.num 1, .num 2, .num 3, .num 4]⟩ : Record).vals.length = 4 := by
  have h := C7_short_rows_dropped [] ⟨"r1 ", "", some "1-2", some headerCols, true, []⟩
    "TEMP 1.0 2.0 3.0" ("TEMP", ["1.0", "2.0", "3.0"]) (by decide) (by decide) (by decide)
    (by decide) (by decide) (by decide)
  exact ⟨h.1, h.2 ["TEST CASE: r1 (yrs 1-2)", "Variable", "TEMP 1 2 3 4"] []
    (headerCols, [⟨"r1 ", "1-2", "TEMP", "", false,
      [PyFloat.num 1, .num 2, .num 3, .num 4]⟩]) (by decide)
    ⟨"r1 ", "1-2", "TEMP", "", false, [PyFloat.num 1, .num 2, .num 3, .num 4]⟩ (by decide)⟩

/-- C8.  In every record of a successful parse, `has_description`
(`flag`) is true exactly when the variable is a key of the supplied map
with a non-empty value, in which case `description` is that value; a
missing key or an empty value gives `flag = false` and an empty
description, and never an error (the successful parse itself shows no
error is raised). -/
theorem C8_description_lookup (lines : List String) (d : List (String × String))
    (out : List String × List Record) (h : read_file_custom lines d = .ok out) :
    ∀ r ∈ out.2,
      (r.flag = true ↔ ∃ v, List.lookup r.var d = some v ∧ v ≠ "") ∧
      (r.flag = true → List.lookup r.var d = some r.desc) ∧
      (r.flag = false → r.desc = "") := by
  intro r hr
  unfold read_file_custom at h
  cases hp : processLines d initState lines with
  | error e => rw [hp] at h; cases h
  | ok st =>
    rw [hp] at h
    dsimp only at h
    cases hh : st.header with
    | none => rw [hh] at h; cases h
    | some hd =>
      rw [hh] at h
      dsimp only at h
      cases h
      exact (processLines_good d lines initState st hp (by intro r hr; cases hr) r hr).2

/-- C8 (witness): the theorem instantiated at a parse whose description
map carries an empty value for `"TEMP"`, giving `flag = false` and an
empty description. -/
theorem C8_witness :
    ((false = true) ↔ ∃ v, List.lookup "TEMP" [("TEMP", "")] = some v ∧ v ≠ "") ∧
    (false = true → List.lookup "TEMP" [("TEMP", "")] = some "") ∧
    (false = false → "" = "") :=
  C8_description_lookup ["TEST CASE: r1 (yrs 1-2)", "Variable", "TEMP 1 2 3 4"]
    [("TEMP", "")]
    (headerCols, [⟨"r1 ", "1-2", "TEMP", "", false,
      [PyFloat.num 1, .num 2, .num 3, .num 4]⟩]) (by decide)
    ⟨"r1 ", "1-2", "TEMP", "", false, [PyFloat.num 1, .num 2, .num 3, .num 4]⟩ (by decide)

/-- C9.  For the degenerate domain `vmin = 0`, `vmax = 0`, the colormap
shifter fails on the division by zero in the midpoint computation
(`abs(vmax) / (abs(vmax) + abs(vmin))`), surfacing the error to the
caller instead of returning any colormap data. -/
theorem C9_zero_domain_division_error :
    shifted_color_map 0 0 = .error .zeroDivisionError := by
  simp [shifted_color_map, pyDiv]

/-- C10.  Any input none of whose lines contains `"TEST CASE:"` —
including the empty input — makes the call fail with an error (`header`
and `years` are never assigned before use), so no table, not even an
empty one, is returned. -/
theorem C10_no_test_case_fails (lines : List String) (d : List (String × String))
    (h : ∀ l ∈ lines, strContains l "TEST CASE:" = false) :
    ∃ e, read_file_custom lines d = .error e := by
  unfold read_file_custom
  cases hp : processLines d initState lines with
  | error e => exact ⟨e, rfl⟩
  | ok st =>
    have hh : st.header = none :=
      processLines_header_none d lines initState st rfl h hp
    dsimp only
    rw [hh]
    exact ⟨.nameError "header", rfl⟩

/-- C10 (witness): the theorem at an input with a control-case line and
a column-header line but no `TEST CASE:` line. -/
theorem C10_witness :
    ∃ e, read_file_custom ["CONTROL CASE: c", "Variable"] [] = .error e :=
  C10_no_test_case_fails ["CONTROL CASE: c", "Variable"] [] (by decide)

end HelperFuncs
